import Mathlib

/-!
Verification of the stick-n-roll sticky-scroll controller (src/index.ts,
version 1.1.2).  The class `StickNRoll` is embedded shallowly: its mutable
fields become a Lean structure `SNR`, the DOM readings consulted during a
cycle become an explicit `Env` record, and each private method becomes a
pure function from the old state (plus the environment) to the new state.
Style writes performed on the managed element and on the container are
tracked in the `elementStyle` and `containerPosition` fields of `SNR`.
-/

namespace StickNRoll

/-- Scroll direction of the viewport, as in the source enum `Direction`. -/
inductive Direction where
  | Down
  | None
  | Up
deriving DecidableEq, Repr

/-- Sticky strategy, as in the source enum `Strategy`. -/
inductive Strategy where
  | Both
  | None
  | Top
deriving DecidableEq, Repr

/-- Layout state of the managed element, as in the source enum `State`. -/
inductive State where
  | ContainerBottom
  | ColliderTop
  | ColliderBottom
  | None
  | TranslateY
  | Rest
deriving DecidableEq, Repr

/-- The five tracked CSS properties (source type `Rules`). -/
structure Rules where
  width : String
  left : String
  top : String
  position : String
  transform : String
deriving DecidableEq, Repr

/-- A partial set of rules (source `Partial<Rules>`): absent fields fall
back to the defaults in `listOfRules`. -/
structure RulesOpt where
  width : Option String
  left : Option String
  top : Option String
  position : Option String
  transform : Option String
deriving DecidableEq, Repr

/-- The empty partial rule set, source literal `{}`. -/
def noRules : RulesOpt := ⟨none, none, none, none, none⟩

/-- DOM readings consulted during one cycle.  `containerCoordsLeft` and
`containerCoordsTop` stand for the result of the offset-chain walk
`_getCoords(this.container)`; the walk itself is a platform primitive
(spec §6 `measureAbsolutePosition`) and is abstracted as a reading. -/
structure Env where
  scrollX : Int
  scrollY : Int
  innerHeight : Int
  containerClientWidth : Int
  containerClientHeight : Int
  elementOffsetHeight : Int
  containerCoordsLeft : Int
  containerCoordsTop : Int

/-- Mutable fields of the `StickNRoll` class (source v1.1.2), plus the two
style sinks written by `_render`: the managed element's five tracked style
properties (`elementStyle`) and the container's `position`
(`containerPosition`). -/
structure SNR where
  events : Bool × Bool
  isRunningRequest : Bool
  translateY : Int
  maxTranslateY : Int
  prevElementHeight : Int
  containerHeight : Int
  containerWidth : Int
  containerLeft : Int
  containerTop : Int
  prevContainerWidth : Int
  prevContainerLeft : Int
  prevContainerTop : Int
  colliderHeight : Int
  colliderTop : Int
  prevColliderTop : Int
  prevViewportScrollX : Int
  prevViewportScrollY : Int
  spaceTop : Int
  prevSpaceTop : Int
  spaceBottom : Int
  prevSpaceBottom : Int
  strategy : Strategy
  prevStrategy : Strategy
  prevState : State
  listOfRules : Rules
  rules : RulesOpt
  elementStyle : Rules
  containerPosition : String

/-- Constructor options (source `OptionsType`). -/
structure Options where
  spaceBottom : Option Int
  spaceTop : Option Int
  position : Option String
deriving DecidableEq, Repr

/-- The constructor's `listOfRules` value: every property defaults to
"initial", the position default being overridable by the options. -/
def defaultRules (o : Options) : Rules :=
  ⟨"initial", "initial", "initial", o.position.getD "initial", "initial"⟩

/-- The constructor.  `style0` and `cpos0` are whatever styles the managed
element and the container carry before the controller touches them. -/
def mkStickNRoll (o : Options) (style0 : Rules) (cpos0 : String) : SNR where
  events := (false, false)
  isRunningRequest := false
  translateY := 0
  maxTranslateY := 0
  prevElementHeight := 0
  containerHeight := 0
  containerWidth := 0
  containerLeft := 0
  containerTop := 0
  prevContainerWidth := 0
  prevContainerLeft := 0
  prevContainerTop := 0
  colliderHeight := 0
  colliderTop := 0
  prevColliderTop := 0
  prevViewportScrollX := 0
  prevViewportScrollY := 0
  spaceTop := o.spaceTop.getD 0
  prevSpaceTop := o.spaceTop.getD 0
  spaceBottom := o.spaceBottom.getD 0
  prevSpaceBottom := o.spaceBottom.getD 0
  strategy := Strategy.None
  prevStrategy := Strategy.None
  prevState := State.None
  listOfRules := defaultRules o
  rules := noRules
  elementStyle := style0
  containerPosition := cpos0

/-- Source `_init`: reset the listed fields to defaults.  The spaces, the
previous spaces, `listOfRules` and the already-applied styles are not
touched by `_init`. -/
def initSNR (s : SNR) : SNR :=
  { s with
    colliderHeight := 0
    colliderTop := 0
    containerHeight := 0
    containerLeft := 0
    containerTop := 0
    containerWidth := 0
    events := (false, false)
    isRunningRequest := false
    maxTranslateY := 0
    prevColliderTop := 0
    prevContainerLeft := 0
    prevContainerTop := 0
    prevContainerWidth := 0
    prevElementHeight := 0
    prevState := State.None
    prevStrategy := Strategy.None
    prevViewportScrollX := 0
    prevViewportScrollY := 0
    rules := noRules
    strategy := Strategy.None
    translateY := 0 }

/-- Source `_getStrategy`, as a pure function of the three heights it
reads: `this.containerHeight`, `this.containerInner.offsetHeight` and
`this.colliderHeight`. -/
def getStrategy (containerHeight elementHeight colliderHeight : Int) : Strategy :=
  if containerHeight ≤ elementHeight then Strategy.None
  else if colliderHeight < elementHeight then Strategy.Both
  else Strategy.Top

/-- Source `_getDirection`. -/
def getDirection (s : SNR) (e : Env) : Direction :=
  if s.prevViewportScrollY = e.scrollY then Direction.None
  else if s.prevViewportScrollY < e.scrollY then Direction.Down
  else Direction.Up

/-- Source `_getState`.  The second component records the state object
after the call, because the rule-3 branch of the `ColliderTop` case
mutates `prevStrategy` as a side effect. -/
def getState (s : SNR) (dir : Direction) (e : Env) : State × SNR :=
  match s.prevState with
  | State.ColliderTop =>
      if s.colliderTop ≤ s.containerTop then (State.None, s)
      else if s.colliderTop + e.elementOffsetHeight ≥ s.containerTop + s.containerHeight then
        (State.ContainerBottom, s)
      else if s.prevStrategy = Strategy.Top ∧ e.elementOffsetHeight > s.colliderHeight then
        (State.TranslateY, { s with prevStrategy := s.strategy })
      else if s.strategy = Strategy.Both ∧ dir = Direction.Down then (State.TranslateY, s)
      else if s.prevViewportScrollX ≠ e.scrollX ∨ s.prevContainerLeft ≠ s.containerLeft ∨
          s.prevContainerWidth ≠ s.containerWidth ∨ s.prevContainerTop ≠ s.containerTop ∨
          s.prevSpaceBottom ≠ s.spaceBottom ∨ s.prevSpaceTop ≠ s.spaceTop then
        (State.ColliderTop, s)
      else (State.Rest, s)
  | State.ColliderBottom =>
      if s.colliderTop ≤ s.containerTop then (State.None, s)
      else if s.colliderTop + s.colliderHeight ≥ s.containerTop + s.containerHeight then
        (State.ContainerBottom, s)
      else if e.elementOffsetHeight ≤ s.colliderHeight then (State.ColliderTop, s)
      else if dir = Direction.Up ∨ s.prevElementHeight ≠ e.elementOffsetHeight then
        (State.TranslateY, s)
      else if s.prevViewportScrollX ≠ e.scrollX ∨ s.prevContainerLeft ≠ s.containerLeft ∨
          s.prevContainerWidth ≠ s.containerWidth ∨ s.prevContainerTop ≠ s.containerTop ∨
          s.prevSpaceBottom ≠ s.spaceBottom ∨ s.prevSpaceTop ≠ s.spaceTop then
        (State.ColliderBottom, s)
      else (State.Rest, s)
  | State.ContainerBottom =>
      if s.colliderTop ≤ s.containerTop then (State.None, s)
      else if dir = Direction.Up ∧ s.colliderTop ≤ s.containerTop + s.maxTranslateY then
        (State.ColliderTop, s)
      else if e.elementOffsetHeight < s.containerTop + s.containerHeight - s.colliderTop then
        (State.ColliderTop, s)
      else if s.prevContainerWidth ≠ s.containerWidth then (State.ContainerBottom, s)
      else (State.Rest, s)
  | State.None =>
      if s.colliderTop + e.elementOffsetHeight ≥ s.containerTop + s.containerHeight then
        (State.ContainerBottom, s)
      else if e.elementOffsetHeight < s.colliderHeight ∧ s.colliderTop ≥ s.containerTop then
        (State.ColliderTop, s)
      else if s.strategy = Strategy.Both ∧
          s.colliderTop + s.colliderHeight ≥ s.containerTop + e.elementOffsetHeight then
        (State.ColliderBottom, s)
      else (State.Rest, s)
  | State.TranslateY =>
      if s.containerHeight - s.translateY < e.elementOffsetHeight then (State.ContainerBottom, s)
      else if e.elementOffsetHeight < s.colliderHeight ∨ s.colliderTop ≤ s.containerTop + s.translateY then
        (State.ColliderTop, s)
      else if s.translateY < s.maxTranslateY ∧
          s.colliderTop + s.colliderHeight > s.containerTop + s.translateY + e.elementOffsetHeight then
        (State.ColliderBottom, s)
      else (State.Rest, s)
  | State.Rest => (State.Rest, s)

/-- Application of the computed rules over the defaults, source loop
`for (const key in this.listOfRules) ...`: each tracked property takes the
rule value when present, the default otherwise. -/
def applyRules (r : RulesOpt) (d : Rules) : Rules :=
  ⟨r.width.getD d.width, r.left.getD d.left, r.top.getD d.top,
   r.position.getD d.position, r.transform.getD d.transform⟩

/-- Source `_render`: computes `translateY` and `rules` for the given
state, then writes the container position and applies the rules to the
element's style. -/
def render (st : State) (s : SNR) (e : Env) : SNR :=
  let s1 :=
    match st with
    | State.ContainerBottom =>
        { s with
          translateY := s.maxTranslateY
          rules :=
            ⟨some (toString e.containerClientWidth ++ "px"), some "0px",
             some (toString s.spaceTop ++ "px"), some "sticky", none⟩ }
    | State.ColliderBottom =>
        { s with
          translateY := 0
          rules :=
            ⟨some (toString e.containerClientWidth ++ "px"),
             some (toString (s.containerLeft - e.scrollX) ++ "px"),
             some (toString (s.colliderHeight + s.spaceTop - e.elementOffsetHeight) ++ "px"),
             some "fixed", none⟩ }
    | State.ColliderTop =>
        { s with
          translateY := 0
          rules :=
            ⟨some (toString e.containerClientWidth ++ "px"),
             some (toString (s.containerLeft - e.scrollX) ++ "px"),
             some (toString s.spaceTop ++ "px"), some "fixed", none⟩ }
    | State.None => { s with translateY := 0, rules := noRules }
    | State.TranslateY =>
        let ty :=
          if s.prevState = State.ColliderTop then s.prevColliderTop - s.containerTop
          else if s.prevState = State.ColliderBottom then
            s.prevColliderTop + s.colliderHeight - s.containerTop - s.prevElementHeight
          else if s.prevState = State.ContainerBottom then
            s.containerHeight - e.elementOffsetHeight
          else s.translateY
        { s with
          translateY := ty
          rules :=
            ⟨none, none, none, some "relative",
             some ("translate3d(0px, " ++ toString ty ++ "px, 0px)")⟩ }
    | State.Rest => s
  { s1 with
    containerPosition := if st = State.ContainerBottom then "relative" else "initial"
    elementStyle := applyRules s1.rules s1.listOfRules }

/-- Source `disable`: remove listeners (no modelled state), `_init`, then
render state `None`.  The environment is unused by the `None` branch. -/
def disable (s : SNR) (e : Env) : SNR :=
  render State.None (initSNR s) e

/-- Source `_calcScroll`. -/
def calcScroll (s : SNR) (e : Env) : SNR :=
  let s1 := { s with colliderTop := e.scrollY + s.spaceTop }
  let r := getState s1 (getDirection s1 e) e
  let s2 := if r.1 ≠ State.Rest then { render r.1 r.2 e with prevState := r.1 } else r.2
  { s2 with
    prevColliderTop := s2.colliderTop
    prevViewportScrollX := e.scrollX
    prevViewportScrollY := e.scrollY }

/-- The state computed by a scroll cycle before the render/commit step:
the first component of the `getState` call made inside `calcScroll`. -/
def scrollState (s : SNR) (e : Env) : State :=
  (getState { s with colliderTop := e.scrollY + s.spaceTop }
    (getDirection { s with colliderTop := e.scrollY + s.spaceTop } e) e).1

/-- Source `_calcDims`. -/
def calcDims (s : SNR) (e : Env) : SNR :=
  let s1 :=
    { s with
      containerLeft := e.containerCoordsLeft
      containerTop := e.containerCoordsTop
      containerHeight := e.containerClientHeight
      containerWidth := e.containerClientWidth
      colliderHeight := e.innerHeight - s.spaceTop - s.spaceBottom
      maxTranslateY := e.containerClientHeight - e.elementOffsetHeight }
  let s2 := { s1 with strategy := getStrategy s1.containerHeight e.elementOffsetHeight s1.colliderHeight }
  let s3 :=
    if s2.strategy = Strategy.None then
      if s2.prevStrategy ≠ s2.strategy then render State.None s2 e else s2
    else calcScroll s2 e
  { s3 with
    prevContainerWidth := s3.containerWidth
    prevContainerLeft := s3.containerLeft
    prevContainerTop := s3.containerTop
    prevElementHeight := e.elementOffsetHeight
    prevStrategy := s3.strategy
    prevSpaceBottom := s3.spaceBottom
    prevSpaceTop := s3.spaceTop }

/-- The strategy a resize cycle will compute, as a function of the current
state and environment (the heights `_getStrategy` sees inside
`_calcDims`). -/
def dimsStrategy (s : SNR) (e : Env) : Strategy :=
  getStrategy e.containerClientHeight e.elementOffsetHeight
    (e.innerHeight - s.spaceTop - s.spaceBottom)

/-- Source `_request` guard, restricted to the pure flag bookkeeping on
the class fields (the scheduled callback itself is modelled by `Sched`
below). -/
def requestFlag (s : SNR) : SNR :=
  if s.isRunningRequest then s else { s with isRunningRequest := true }

/-- Source `_resizeListener`, the flag part. -/
def resizeListenerFlag (s : SNR) : SNR :=
  requestFlag (if s.events.1 = false then { s with events := (true, s.events.2) } else s)

/-- Source `updateSpaces`: overwrite both spaces (absent fields default to
0), reset via `_init`, then fire the resize listener. -/
def updateSpaces (s : SNR) (spaceBottomArg spaceTopArg : Option Int) : SNR :=
  resizeListenerFlag
    (initSNR { s with spaceBottom := spaceBottomArg.getD 0, spaceTop := spaceTopArg.getD 0 })

/-- One recompute cycle: either a resize recompute (`_calcDims`) or a
scroll recompute (`_calcScroll`), as dispatched by the scheduled callback
in `_request`. -/
inductive Cycle where
  | resize (e : Env)
  | scroll (e : Env)

/-- Run one cycle. -/
def step (s : SNR) : Cycle → SNR
  | Cycle.resize e => calcDims s e
  | Cycle.scroll e => calcScroll s e

/-!
Scheduling model.  `_request` keeps at most one callback registered with
the frame scheduler; the listeners set per-kind flags.  `Sched` captures
the flag pair, the `isRunningRequest` guard, and the number of callbacks
currently registered with the scheduler. -/

/-- Recompute kinds, ordered by the priority in the scheduled callback. -/
inductive Kind where
  | resize
  | scroll
deriving DecidableEq, Repr

/-- Scheduling state: the two event flags, the guard, and the number of
callbacks currently registered. -/
structure Sched where
  flagResize : Bool
  flagScroll : Bool
  isRunningRequest : Bool
  pending : Nat
deriving DecidableEq, Repr

/-- Source `_request`: register a callback unless one is already pending. -/
def schedRequest (s : Sched) : Sched :=
  if s.isRunningRequest then s
  else { s with isRunningRequest := true, pending := s.pending + 1 }

/-- Source `_resizeListener`: set the resize flag, then `_request`. -/
def schedResize (s : Sched) : Sched :=
  schedRequest (if s.flagResize = false then { s with flagResize := true } else s)

/-- Source `_scrollListener`: set the scroll flag, then `_request`. -/
def schedScroll (s : Sched) : Sched :=
  schedRequest (if s.flagScroll = false then { s with flagScroll := true } else s)

/-- The recompute the scheduled callback would run at a tick: resize wins
over scroll, nothing runs when no flag is set. -/
def tickKind (s : Sched) : Option Kind :=
  if s.flagResize then some Kind.resize
  else if s.flagScroll then some Kind.scroll
  else none

/-- A refresh tick: when a callback is registered, it consumes one flag
with resize priority and clears the guard. -/
def schedTick (s : Sched) : Sched :=
  if s.pending = 0 then s
  else
    let s1 :=
      if s.flagResize then { s with flagResize := false }
      else if s.flagScroll then { s with flagScroll := false }
      else s
    { s1 with pending := s.pending - 1, isRunningRequest := false }

/-- External stimuli: the two signal kinds plus the refresh tick. -/
inductive Sig where
  | resize
  | scroll
  | tick
deriving DecidableEq, Repr

/-- Process one stimulus. -/
def schedStep (s : Sched) : Sig → Sched
  | Sig.resize => schedResize s
  | Sig.scroll => schedScroll s
  | Sig.tick => schedTick s

/-- Scheduler state at construction time. -/
def schedInit : Sched := ⟨false, false, false, 0⟩

/-- Run a sequence of stimuli from the initial scheduler state. -/
def runSched (sigs : List Sig) : Sched := sigs.foldl schedStep schedInit

/-- The guard invariant: the number of registered callbacks is exactly one
when `isRunningRequest` is set and zero otherwise. -/
def schedInv (s : Sched) : Prop := s.pending = if s.isRunningRequest then 1 else 0

/-!
Spec-side transition tables.  These two definitions follow the wording of
the specification, not the code: for each previous state they collect the
listed transition conditions into one disjunction, so that "the function
returns Rest iff none of that state's listed conditions hold" can be
stated.  `specAnyCondAsWritten` is the table exactly as the spec writes
it: the re-affirm rule from `ColliderTop` and from `ColliderBottom` lists
only changes to scroll-X, containerLeft, containerWidth and containerTop.
`specAnyCond` is the amended table whose re-affirm rules additionally
fire on spaceTop and spaceBottom changes. -/

/-- Spec transition table as written: disjunction of the listed conditions
for the given previous state (geometry names read off the snapshot). -/
def specAnyCondAsWritten (s : SNR) (dir : Direction) (e : Env) : Bool :=
  match s.prevState with
  | State.ColliderTop =>
      decide (s.colliderTop ≤ s.containerTop) ||
      decide (s.colliderTop + e.elementOffsetHeight ≥ s.containerTop + s.containerHeight) ||
      decide (s.prevStrategy = Strategy.Top ∧ e.elementOffsetHeight > s.colliderHeight) ||
      decide (s.strategy = Strategy.Both ∧ dir = Direction.Down) ||
      decide (s.prevViewportScrollX ≠ e.scrollX ∨ s.prevContainerLeft ≠ s.containerLeft ∨
        s.prevContainerWidth ≠ s.containerWidth ∨ s.prevContainerTop ≠ s.containerTop)
  | State.ColliderBottom =>
      decide (s.colliderTop ≤ s.containerTop) ||
      decide (s.colliderTop + s.colliderHeight ≥ s.containerTop + s.containerHeight) ||
      decide (e.elementOffsetHeight ≤ s.colliderHeight) ||
      decide (dir = Direction.Up ∨ s.prevElementHeight ≠ e.elementOffsetHeight) ||
      decide (s.prevViewportScrollX ≠ e.scrollX ∨ s.prevContainerLeft ≠ s.containerLeft ∨
        s.prevContainerWidth ≠ s.containerWidth ∨ s.prevContainerTop ≠ s.containerTop)
  | State.ContainerBottom =>
      decide (s.colliderTop ≤ s.containerTop) ||
      decide (dir = Direction.Up ∧ s.colliderTop ≤ s.containerTop + s.maxTranslateY) ||
      decide (e.elementOffsetHeight < s.containerTop + s.containerHeight - s.colliderTop) ||
      decide (s.prevContainerWidth ≠ s.containerWidth)
  | State.None =>
      decide (s.colliderTop + e.elementOffsetHeight ≥ s.containerTop + s.containerHeight) ||
      decide (e.elementOffsetHeight < s.colliderHeight ∧ s.colliderTop ≥ s.containerTop) ||
      decide (s.strategy = Strategy.Both ∧
        s.colliderTop + s.colliderHeight ≥ s.containerTop + e.elementOffsetHeight)
  | State.TranslateY =>
      decide (s.containerHeight - s.translateY < e.elementOffsetHeight) ||
      decide (e.elementOffsetHeight < s.colliderHeight ∨ s.colliderTop ≤ s.containerTop + s.translateY) ||
      decide (s.translateY < s.maxTranslateY ∧
        s.colliderTop + s.colliderHeight > s.containerTop + s.translateY + e.elementOffsetHeight)
  | State.Rest => false

/-- Spec transition table, amended: as `specAnyCondAsWritten` but the
re-affirm rules from `ColliderTop` and `ColliderBottom` also fire on
spaceTop and spaceBottom changes. -/
def specAnyCond (s : SNR) (dir : Direction) (e : Env) : Bool :=
  match s.prevState with
  | State.ColliderTop =>
      decide (s.colliderTop ≤ s.containerTop) ||
      decide (s.colliderTop + e.elementOffsetHeight ≥ s.containerTop + s.containerHeight) ||
      decide (s.prevStrategy = Strategy.Top ∧ e.elementOffsetHeight > s.colliderHeight) ||
      decide (s.strategy = Strategy.Both ∧ dir = Direction.Down) ||
      decide (s.prevViewportScrollX ≠ e.scrollX ∨ s.prevContainerLeft ≠ s.containerLeft ∨
        s.prevContainerWidth ≠ s.containerWidth ∨ s.prevContainerTop ≠ s.containerTop ∨
        s.prevSpaceBottom ≠ s.spaceBottom ∨ s.prevSpaceTop ≠ s.spaceTop)
  | State.ColliderBottom =>
      decide (s.colliderTop ≤ s.containerTop) ||
      decide (s.colliderTop + s.colliderHeight ≥ s.containerTop + s.containerHeight) ||
      decide (e.elementOffsetHeight ≤ s.colliderHeight) ||
      decide (dir = Direction.Up ∨ s.prevElementHeight ≠ e.elementOffsetHeight) ||
      decide (s.prevViewportScrollX ≠ e.scrollX ∨ s.prevContainerLeft ≠ s.containerLeft ∨
        s.prevContainerWidth ≠ s.containerWidth ∨ s.prevContainerTop ≠ s.containerTop ∨
        s.prevSpaceBottom ≠ s.spaceBottom ∨ s.prevSpaceTop ≠ s.spaceTop)
  | State.ContainerBottom =>
      decide (s.colliderTop ≤ s.containerTop) ||
      decide (dir = Direction.Up ∧ s.colliderTop ≤ s.containerTop + s.maxTranslateY) ||
      decide (e.elementOffsetHeight < s.containerTop + s.containerHeight - s.colliderTop) ||
      decide (s.prevContainerWidth ≠ s.containerWidth)
  | State.None =>
      decide (s.colliderTop + e.elementOffsetHeight ≥ s.containerTop + s.containerHeight) ||
      decide (e.elementOffsetHeight < s.colliderHeight ∧ s.colliderTop ≥ s.containerTop) ||
      decide (s.strategy = Strategy.Both ∧
        s.colliderTop + s.colliderHeight ≥ s.containerTop + e.elementOffsetHeight)
  | State.TranslateY =>
      decide (s.containerHeight - s.translateY < e.elementOffsetHeight) ||
      decide (e.elementOffsetHeight < s.colliderHeight ∨ s.colliderTop ≤ s.containerTop + s.translateY) ||
      decide (s.translateY < s.maxTranslateY ∧
        s.colliderTop + s.colliderHeight > s.containerTop + s.translateY + e.elementOffsetHeight)
  | State.Rest => false

/-!
Concrete inputs used by the counterexamples and witnesses below. -/

/-- Options with all fields omitted. -/
def opts0 : Options := ⟨none, none, none⟩

/-- A freshly constructed controller over an element whose pre-existing
styles are arbitrary strings. -/
def snr0 : SNR := mkStickNRoll opts0 ⟨"w0", "l0", "t0", "p0", "x0"⟩ "cp0"

/-- A controller in state `ColliderTop`, strategy `Both`, about to scroll
down by 10 pixels: the previous cycle recorded colliderTop = 500, and the
container sits at y = 100 with height 10000. -/
def c1s : SNR :=
  { snr0 with
    prevState := State.ColliderTop
    strategy := Strategy.Both
    prevStrategy := Strategy.Both
    containerTop := 100
    prevContainerTop := 100
    containerHeight := 10000
    colliderHeight := 800
    prevColliderTop := 500
    prevViewportScrollY := 500
    containerWidth := 500
    prevContainerWidth := 500
    maxTranslateY := 9700
    prevElementHeight := 300 }

/-- The scroll reading for that cycle: scrollY = 510, so the fresh
colliderTop is 510 while the recorded one is 500. -/
def c1e : Env := ⟨0, 510, 800, 500, 10000, 300, 0, 100⟩

/-- A controller in state `ColliderTop` where only spaceTop changed since
the previous cycle (64 versus 0); every field the spec's re-affirm rule
lists is unchanged and no other transition condition holds. -/
def c2s : SNR :=
  { snr0 with
    prevState := State.ColliderTop
    colliderTop := 500
    containerTop := 0
    containerHeight := 10000
    strategy := Strategy.Top
    prevStrategy := Strategy.Top
    colliderHeight := 800
    containerWidth := 500
    prevContainerWidth := 500
    spaceTop := 64
    prevSpaceTop := 0 }

/-- Readings for that cycle: scroll-X unchanged, element height 300. -/
def c2e : Env := ⟨0, 436, 800, 500, 10000, 300, 0, 0⟩

/-- Resize reading with a 1000-pixel container holding a 2000-pixel
element: the classified strategy is `None`. -/
def c5e1 : Env := ⟨0, 0, 800, 500, 1000, 2000, 0, 0⟩

/-- A subsequent scroll reading (scrolled down to y = 10). -/
def c5e2 : Env := ⟨0, 10, 800, 500, 1000, 2000, 0, 0⟩

/-- The controller after the resize cycle on `c5e1`: stored strategy is
`None`, previous state is still `None`. -/
def c5s1 : SNR := calcDims snr0 c5e1

/-- A controller whose previous strategy is `Both`, used to witness the
render that fires when the strategy changes to `None`. -/
def c5ws : SNR := { snr0 with prevStrategy := Strategy.Both }

/-- A controller configured with spaceTop = 64 and spaceBottom = 8. -/
def c9s : SNR := { snr0 with spaceTop := 64, spaceBottom := 8 }

/-- A resize reading with viewport height 800. -/
def c9e : Env := ⟨0, 0, 800, 500, 3000, 200, 0, 0⟩



lemma getState_snd (s : SNR) (dir : Direction) (e : Env) :
    (getState s dir e).2 = s ∨ (getState s dir e).2 = { s with prevStrategy := s.strategy } := by
  cases hp : s.prevState <;> simp only [getState, hp] <;> (try split_ifs) <;> simp

lemma getState_snd_prevState (s : SNR) (dir : Direction) (e : Env) :
    (getState s dir e).2.prevState = s.prevState := by
  rcases getState_snd s dir e with h | h <;> rw [h]

lemma render_keeps (st : State) (s : SNR) (e : Env) :
    (render st s e).listOfRules = s.listOfRules ∧
    (render st s e).prevState = s.prevState ∧
    (render st s e).colliderTop = s.colliderTop ∧
    (render st s e).colliderHeight = s.colliderHeight ∧
    (render st s e).spaceTop = s.spaceTop ∧
    (render st s e).spaceBottom = s.spaceBottom ∧
    (render st s e).strategy = s.strategy := by
  cases st <;> exact ⟨rfl, rfl, rfl, rfl, rfl, rfl, rfl⟩

lemma calcScroll_keeps (s : SNR) (e : Env) :
    (calcScroll s e).listOfRules = s.listOfRules ∧
    (calcScroll s e).colliderTop = e.scrollY + s.spaceTop ∧
    (calcScroll s e).colliderHeight = s.colliderHeight ∧
    (calcScroll s e).spaceTop = s.spaceTop ∧
    (calcScroll s e).spaceBottom = s.spaceBottom := by
  simp only [calcScroll]
  rcases getState_snd { s with colliderTop := e.scrollY + s.spaceTop }
      (getDirection { s with colliderTop := e.scrollY + s.spaceTop } e) e with h | h <;>
    split_ifs <;> simp [h, render_keeps]

lemma calcDims_keeps (s : SNR) (e : Env) :
    (calcDims s e).listOfRules = s.listOfRules ∧
    (calcDims s e).colliderHeight = e.innerHeight - s.spaceTop - s.spaceBottom := by
  simp only [calcDims]
  split_ifs <;> simp [calcScroll_keeps, render_keeps]

lemma calcScroll_prevState (s : SNR) (e : Env) (h : s.prevState ≠ State.Rest) :
    (calcScroll s e).prevState ≠ State.Rest := by
  simp only [calcScroll]
  split_ifs with h1
  · simpa using h1
  · simpa [getState_snd_prevState] using h

lemma calcDims_prevState (s : SNR) (e : Env) (h : s.prevState ≠ State.Rest) :
    (calcDims s e).prevState ≠ State.Rest := by
  simp only [calcDims]
  split_ifs with h1 h2
  · simpa [render_keeps] using h
  · simpa using h
  · have h3 := calcScroll_prevState
      { s with
        containerLeft := e.containerCoordsLeft
        containerTop := e.containerCoordsTop
        containerHeight := e.containerClientHeight
        containerWidth := e.containerClientWidth
        colliderHeight := e.innerHeight - s.spaceTop - s.spaceBottom
        maxTranslateY := e.containerClientHeight - e.elementOffsetHeight
        strategy := getStrategy e.containerClientHeight e.elementOffsetHeight
          (e.innerHeight - s.spaceTop - s.spaceBottom) } e (by simpa using h)
    simpa using h3

lemma step_prevState (s : SNR) (c : Cycle) (h : s.prevState ≠ State.Rest) :
    (step s c).prevState ≠ State.Rest := by
  cases c with
  | resize e => exact calcDims_prevState s e h
  | scroll e => exact calcScroll_prevState s e h

lemma foldl_prevState (cs : List Cycle) (s : SNR) (h : s.prevState ≠ State.Rest) :
    (cs.foldl step s).prevState ≠ State.Rest := by
  induction cs generalizing s with
  | nil => exact h
  | cons c cs ih => exact ih _ (step_prevState s c h)

lemma step_listOfRules (s : SNR) (c : Cycle) : (step s c).listOfRules = s.listOfRules := by
  cases c with
  | resize e => exact (calcDims_keeps s e).1
  | scroll e => exact (calcScroll_keeps s e).1

lemma foldl_listOfRules (cs : List Cycle) (s : SNR) :
    (cs.foldl step s).listOfRules = s.listOfRules := by
  induction cs generalizing s with
  | nil => rfl
  | cons c cs ih => rw [List.foldl_cons, ih, step_listOfRules]

/-- C4: `classify` is a total pure function of the three heights returning
one of the three strategies; it returns `None` exactly when
containerHeight ≤ elementHeight (so the boundary containerHeight =
elementHeight classifies as `None`), `Both` exactly when the element fits
the container but exceeds the collider band, and `Top` otherwise. -/
theorem classify_total_cases (ch eh colh : Int) :
    (getStrategy ch eh colh = Strategy.None ↔ ch ≤ eh) ∧
    (getStrategy ch eh colh = Strategy.Both ↔ eh < ch ∧ colh < eh) ∧
    (getStrategy ch eh colh = Strategy.Top ↔ eh < ch ∧ eh ≤ colh) ∧
    getStrategy ch ch colh = Strategy.None := by
  unfold getStrategy
  refine ⟨?_, ?_, ?_, ?_⟩ <;> split_ifs <;> simp_all

/-- C6: rendering `ContainerBottom` sets translateY to maxTranslateY and
produces exactly the rules top = spaceTop, left = 0, position sticky,
width = container width; the container's own position is set to
"relative" exactly when the rendered state is `ContainerBottom` and to
"initial" for every other rendered state. -/
theorem render_containerBottom_rules (s : SNR) (e : Env) (st : State) :
    (render State.ContainerBottom s e).translateY = s.maxTranslateY ∧
    (render State.ContainerBottom s e).rules =
      ⟨some (toString e.containerClientWidth ++ "px"), some "0px",
       some (toString s.spaceTop ++ "px"), some "sticky", none⟩ ∧
    (render st s e).containerPosition =
      (if st = State.ContainerBottom then "relative" else "initial") := by
  refine ⟨rfl, rfl, ?_⟩
  cases st <;> rfl

/-- C3: after any sequence of resize/scroll cycles following
construction, `disable` writes all five tracked style properties of the
managed element back to the configured baseline (`listOfRules`) and
resets the container's own position to "initial". -/
theorem disable_restores_baseline (o : Options) (style0 : Rules) (cpos0 : String)
    (cs : List Cycle) (e : Env) :
    (disable (cs.foldl step (mkStickNRoll o style0 cpos0)) e).elementStyle = defaultRules o ∧
    (disable (cs.foldl step (mkStickNRoll o style0 cpos0)) e).containerPosition = "initial" := by
  constructor
  · show (cs.foldl step (mkStickNRoll o style0 cpos0)).listOfRules = defaultRules o
    rw [foldl_listOfRules]
    rfl
  · rfl

/-- C8: the persisted previous state is never `Rest`: after any sequence
of resize/scroll cycles from construction it is one of the five real
states, because a cycle whose computed state is `Rest` leaves the
previous state unchanged. -/
theorem prevState_never_rest (o : Options) (style0 : Rules) (cpos0 : String)
    (cs : List Cycle) :
    (cs.foldl step (mkStickNRoll o style0 cpos0)).prevState = State.None ∨
    (cs.foldl step (mkStickNRoll o style0 cpos0)).prevState = State.ColliderTop ∨
    (cs.foldl step (mkStickNRoll o style0 cpos0)).prevState = State.ColliderBottom ∨
    (cs.foldl step (mkStickNRoll o style0 cpos0)).prevState = State.TranslateY ∨
    (cs.foldl step (mkStickNRoll o style0 cpos0)).prevState = State.ContainerBottom := by
  have h : (cs.foldl step (mkStickNRoll o style0 cpos0)).prevState ≠ State.Rest :=
    foldl_prevState cs _ (by simp [mkStickNRoll])
  cases h2 : (cs.foldl step (mkStickNRoll o style0 cpos0)).prevState <;> simp_all

/-- C9: a scroll cycle derives colliderTop as the viewport scroll offset
plus spaceTop, a resize cycle derives colliderHeight as the viewport
height minus spaceTop minus spaceBottom; with spaceTop = 64,
spaceBottom = 8 and viewport height 800 the collider height is 728. -/
theorem collider_band_derivation (s : SNR) (e : Env) :
    (calcScroll s e).colliderTop = e.scrollY + s.spaceTop ∧
    (calcDims s e).colliderHeight = e.innerHeight - s.spaceTop - s.spaceBottom ∧
    (calcDims c9s c9e).colliderHeight = 728 := by
  refine ⟨(calcScroll_keeps s e).2.1, (calcDims_keeps s e).2, by decide⟩

/-- C10: `updateSpaces` resets any omitted space field to 0 instead of
retaining its previous value; a passed field is stored as given, so only
passing both fields preserves a non-zero value for each. -/
theorem updateSpaces_omitted_resets (s : SNR) (b t : Option Int) (bv tv : Int) :
    (updateSpaces s b t).spaceBottom = b.getD 0 ∧
    (updateSpaces s b t).spaceTop = t.getD 0 ∧
    (updateSpaces s none (some tv)).spaceBottom = 0 ∧
    (updateSpaces s (some bv) none).spaceTop = 0 ∧
    (updateSpaces s (some bv) (some tv)).spaceBottom = bv ∧
    (updateSpaces s (some bv) (some tv)).spaceTop = tv := by
  unfold updateSpaces resizeListenerFlag requestFlag initSNR
  split_ifs <;> simp

/-- C2 (amended): `nextState` always yields one of the six states, and
yields `Rest` exactly when none of the transition-table conditions for
the previous state holds, the re-affirm conditions being the six-field
versions (including spaceTop/spaceBottom changes). -/
theorem state_machine_rest_iff (s : SNR) (dir : Direction) (e : Env) :
    ((getState s dir e).1 = State.ContainerBottom ∨ (getState s dir e).1 = State.ColliderTop ∨
     (getState s dir e).1 = State.ColliderBottom ∨ (getState s dir e).1 = State.None ∨
     (getState s dir e).1 = State.TranslateY ∨ (getState s dir e).1 = State.Rest) ∧
    ((getState s dir e).1 = State.Rest ↔ specAnyCond s dir e = false) := by
  constructor
  · cases h : (getState s dir e).1 <;> simp
  · cases hp : s.prevState <;> simp only [getState, specAnyCond, hp] <;> (try split_ifs) <;>
      simp_all

/-- C2 counterexample: a `ColliderTop` re-affirm fires although none of
the four spec-listed fields changed (only spaceTop did). -/
theorem colliderTop_reaffirm_on_space_change :
    c2s.prevState = State.ColliderTop ∧
    c2s.prevViewportScrollX = c2e.scrollX ∧
    c2s.prevContainerLeft = c2s.containerLeft ∧
    c2s.prevContainerWidth = c2s.containerWidth ∧
    c2s.prevContainerTop = c2s.containerTop ∧
    specAnyCondAsWritten c2s Direction.None c2e = false ∧
    (getState c2s Direction.None c2e).1 = State.ColliderTop := by decide

/-- C1 (amended): whenever a scroll cycle transitions into `TranslateY`
from previous state `ColliderTop`, the resolved translateY equals
prevColliderTop − containerTop (the collider top recorded on the previous
cycle), and the applied style is position relative with transform
translate3d(0px, translateY px, 0px). -/
theorem translateY_from_colliderTop_continuity (s : SNR) (e : Env)
    (hp : s.prevState = State.ColliderTop) (ht : scrollState s e = State.TranslateY) :
    (calcScroll s e).translateY = s.prevColliderTop - s.containerTop ∧
    (calcScroll s e).elementStyle.position = "relative" ∧
    (calcScroll s e).elementStyle.transform =
      "translate3d(0px, " ++ toString (s.prevColliderTop - s.containerTop) ++ "px, 0px)" := by
  unfold scrollState at ht
  rcases getState_snd { s with colliderTop := e.scrollY + s.spaceTop }
      (getDirection { s with colliderTop := e.scrollY + s.spaceTop } e) e with hg | hg <;>
  · simp only [calcScroll, ht, hg]
    simp [render, applyRules, hp]

/-- C1 witness: concrete run of the amended continuity law. -/
theorem translateY_from_colliderTop_continuity_witness :
    c1s.prevState = State.ColliderTop ∧
    scrollState c1s c1e = State.TranslateY ∧
    (calcScroll c1s c1e).translateY = c1s.prevColliderTop - c1s.containerTop :=
  ⟨by decide, by decide,
    (translateY_from_colliderTop_continuity c1s c1e (by decide) (by decide)).1⟩

/-- C1 counterexample: on the cycle entering `TranslateY` from
`ColliderTop` the code resolves translateY = 400 (from the previous
cycle's collider top 500) while the current cycle's colliderTop −
containerTop is 410. -/
theorem translateY_not_from_current_colliderTop :
    c1s.prevState = State.ColliderTop ∧
    scrollState c1s c1e = State.TranslateY ∧
    (calcScroll c1s c1e).translateY = 400 ∧
    (calcScroll c1s c1e).colliderTop - c1s.containerTop = 410 ∧
    (calcScroll c1s c1e).elementStyle.transform = "translate3d(0px, 400px, 0px)" := by
  decide

/-- C5 (amended): a resize cycle whose classified strategy is `None` does
not evaluate the state machine (previous state and the scroll bookkeeping
are untouched); it renders state `None`, resetting the element to the
baseline styles, exactly when the strategy just changed away from a
different previous strategy. -/
theorem strategy_none_short_circuits_resize (s : SNR) (e : Env)
    (h : dimsStrategy s e = Strategy.None) :
    (calcDims s e).prevState = s.prevState ∧
    (calcDims s e).prevViewportScrollY = s.prevViewportScrollY ∧
    (s.prevStrategy = Strategy.None →
      (calcDims s e).elementStyle = s.elementStyle ∧
      (calcDims s e).containerPosition = s.containerPosition) ∧
    (s.prevStrategy ≠ Strategy.None →
      (calcDims s e).elementStyle = s.listOfRules ∧
      (calcDims s e).containerPosition = "initial") := by
  unfold dimsStrategy at h
  simp only [calcDims]
  split_ifs with h1 <;> simp_all [render, applyRules, noRules]

/-- C5 witness: with previous strategy `Both` and a 2000-pixel element in
a 1000-pixel container, the resize cycle classifies `None`, leaves the
previous state alone and renders the baseline styles. -/
theorem strategy_none_short_circuits_resize_witness :
    dimsStrategy c5ws c5e1 = Strategy.None ∧
    (calcDims c5ws c5e1).prevState = c5ws.prevState ∧
    (calcDims c5ws c5e1).elementStyle = c5ws.listOfRules ∧
    (calcDims c5ws c5e1).containerPosition = "initial" := by
  have h := strategy_none_short_circuits_resize c5ws c5e1 (by decide)
  exact ⟨by decide, h.1, (h.2.2.2 (by decide)).1, (h.2.2.2 (by decide)).2⟩

/-- C5 counterexample: with the stored strategy `None` (container 1000,
element 2000), a scroll cycle still evaluates the state machine and fires
a transition to `ContainerBottom`, applying sticky positioning. -/
theorem scroll_fires_transition_under_strategy_none :
    c5s1.strategy = Strategy.None ∧
    c5s1.prevState = State.None ∧
    (calcScroll c5s1 c5e2).prevState = State.ContainerBottom ∧
    (calcScroll c5s1 c5e2).elementStyle.position = "sticky" := by
  decide

lemma schedStep_inv (s : Sched) (g : Sig) (h : schedInv s) : schedInv (schedStep s g) := by
  rcases s with ⟨fr, fs, ir, p⟩
  cases g <;> cases ir <;> cases fr <;> cases fs <;>
    simp_all [schedStep, schedResize, schedScroll, schedTick, schedRequest, schedInv]

lemma runSched_inv (sigs : List Sig) : schedInv (runSched sigs) := by
  suffices h : ∀ (s : Sched), schedInv s → schedInv (sigs.foldl schedStep s) by
    exact h _ (by simp [schedInv, schedInit])
  induction sigs with
  | nil => exact fun s hs => hs
  | cons g gs ih => exact fun s hs => ih _ (schedStep_inv s g hs)

/-- C7: the scheduling guard keeps at most one registered callback under
every interleaving of resize/scroll signals and ticks; a signal arriving
while a callback is pending only sets its flag without registering a
second callback; and when both flags are set at a tick, the resize
recompute runs. -/
theorem request_guard_coalesces (sigs : List Sig) (s : Sched)
    (h1 : s.isRunningRequest = true) (h2 : s.flagResize = true) (h3 : s.flagScroll = true) :
    (runSched sigs).pending ≤ 1 ∧
    (schedResize s).pending = s.pending ∧
    (schedScroll s).pending = s.pending ∧
    tickKind s = some Kind.resize := by
  refine ⟨?_, ?_, ?_, ?_⟩
  · have h := runSched_inv sigs
    simp only [schedInv] at h
    split_ifs at h <;> omega
  · simp [schedResize, schedRequest, h1, h2]
  · simp [schedScroll, schedRequest, h1, h3]
  · simp [tickKind, h2]

/-- C7 witness: concrete instantiation of the coalescing guarantees. -/
theorem request_guard_coalesces_witness :
    (runSched [Sig.resize, Sig.scroll, Sig.tick]).pending ≤ 1 ∧
    (schedResize ⟨true, true, true, 1⟩).pending = (⟨true, true, true, 1⟩ : Sched).pending ∧
    (schedScroll ⟨true, true, true, 1⟩).pending = (⟨true, true, true, 1⟩ : Sched).pending ∧
    tickKind ⟨true, true, true, 1⟩ = some Kind.resize :=
  request_guard_coalesces [Sig.resize, Sig.scroll, Sig.tick] ⟨true, true, true, 1⟩ rfl rfl rfl

end StickNRoll
